import Mathlib

/-!
Shallow embedding of the breathing-timer controller of
`src/HTMLCSSJS/script.js` (the `practiceController` function and the
`fmt` utility), together with theorems checking the specification's
claims about it.

Modelling conventions:
* JS numbers holding whole seconds are `Int` (negative configuration
  values are representable, as `parseInt` can return them).
* The phase index is a `Nat` (it is only ever `0` or `(i+1) % 4`).
* The CSS scale factors `1.28` / `1.00` / `scale(1)` are exact decimal
  constants, stored as hundredths (`128` / `100`) in `Nat`.
* A select control's value, as read through `parseInt(x, 10)`, is an
  `Option Int`: `none` models `NaN` (unparsable input), `some n` a
  successful parse.  JS `parseInt(x, 10) || d` is `parseIntOr`: `NaN`
  and `0` are falsy, so both fall back to `d`.
* `setInterval` / `clearInterval` are modelled by an allocator: each
  `setInterval` hands out a fresh id, `activeIds` is the list of ids of
  timers currently scheduled, and the JS variable `interval` is
  `intervalVar` (it is never nulled by the source, only overwritten).
* DOM outputs (cue text, time text, the circle's scale, the three
  buttons' `disabled` flags) are fields of the state.  The CSS
  transition string set by `applyTransitionDuration` is not observable
  by any claim and is omitted.
-/

set_option autoImplicit false

namespace Meditation

/-- One entry of the `phases` array of `practiceController`. -/
structure Phase where
  key : String
  label : String
  scale100 : Nat
deriving Repr, DecidableEq

/-- The `phases` array: 0 inhale, 1 hold, 2 exhale, 3 hold. -/
def phases : List Phase :=
  [ { key := "inhale", label := "Inhale", scale100 := 128 },
    { key := "hold1", label := "Hold", scale100 := 128 },
    { key := "exhale", label := "Exhale", scale100 := 100 },
    { key := "hold2", label := "Hold", scale100 := 100 } ]

/-- The mutable state owned by `practiceController`, plus the DOM
surfaces it writes and the interval-timer bookkeeping. -/
structure TimerState where
  /-- Field for JS `total`: configured session length in seconds. -/
  total : Int
  /-- Field for JS `tempo`: configured seconds per phase. -/
  tempo : Int
  /-- Field for JS `phaseIdx`: index into `phases`. -/
  phaseIdx : Nat
  /-- Field for JS `phaseTimeLeft`: seconds left in the current phase. -/
  phaseTimeLeft : Int
  /-- Field for JS `timeLeft`: seconds left in the session. -/
  timeLeft : Int
  /-- Field for the JS `running` flag. -/
  running : Bool
  /-- Current value of the tempo select control, as `parseInt` sees it. -/
  tempoSelVal : Option Int
  /-- Current value of the duration select control, as `parseInt` sees it. -/
  durSelVal : Option Int
  /-- Content of `cueText.textContent`. -/
  cue : String
  /-- The circle's transform scale, in hundredths. -/
  scale100 : Nat
  /-- Content of `timeLeftEl.textContent`. -/
  timeText : String
  /-- State of `startBtn.disabled`. -/
  startDisabled : Bool
  /-- State of `pauseBtn.disabled`. -/
  pauseDisabled : Bool
  /-- State of `resetBtn.disabled`. -/
  resetDisabled : Bool
  /-- The JS variable `interval` (last id returned by `setInterval`). -/
  intervalVar : Option Nat
  /-- Ids of interval timers currently scheduled. -/
  activeIds : List Nat
  /-- Next fresh id `setInterval` will return. -/
  nextId : Nat
deriving Repr, DecidableEq

/-- Zero-pad a string on the left to length 2, as `padStart(2, '0')`. -/
def padStart2 (t : String) : String :=
  String.mk (List.replicate (2 - t.length) '0') ++ t

/-- JS `fmt(seconds)`: format seconds to MM:SS, clamping negatives to 0.
For integer inputs `Math.floor` is the identity, so it is dropped. -/
def fmt (seconds : Int) : String :=
  let s := (max 0 seconds).toNat
  let m := padStart2 (toString (s / 60))
  let ss := padStart2 (toString (s % 60))
  m ++ ":" ++ ss

/-- Modelled from the spec: the formatting formula as worded in the
spec, "floor(max(0,s)/60) zero-padded to 2 digits, then ':', then
max(0,s) mod 60 zero-padded to 2 digits", to be compared with `fmt`. -/
def fmtSpec (seconds : Int) : String :=
  padStart2 (toString ((max 0 seconds).toNat / 60)) ++ ":" ++
    padStart2 (toString ((max 0 seconds).toNat % 60))

/-- JS `parseInt(x, 10) || d`: `NaN` (here `none`) and `0` are falsy. -/
def parseIntOr (v : Option Int) (d : Int) : Int :=
  match v with
  | none => d
  | some n => if n = 0 then d else n

/-- JS `clearInterval(interval)`: cancel the timer the id refers to, when it
is still scheduled; `clearInterval(null)` and stale ids are no-ops. -/
def clearInterval (ids : List Nat) (v : Option Nat) : List Nat :=
  match v with
  | none => ids
  | some i => ids.filter (fun x => x != i)

/-- JS `setPhase(p)`: write the phase's label to the cue and its scale to
the circle (the transition-duration write is not modelled). -/
def setPhase (p : Nat) (s : TimerState) : TimerState :=
  let ph := phases.getD p { key := "", label := "", scale100 := 0 }
  { s with cue := ph.label, scale100 := ph.scale100 }

/-- JS `updateTime()`: render `timeLeft` through `fmt`. -/
def updateTime (s : TimerState) : TimerState :=
  { s with timeText := fmt s.timeLeft }

/-- JS `stop()`: clear `running`, re-enable start, disable pause, cancel the
referenced interval timer. -/
def stop (s : TimerState) : TimerState :=
  { s with
    running := false
    startDisabled := false
    pauseDisabled := true
    activeIds := clearInterval s.activeIds s.intervalVar }

/-- JS `tick()`: the periodic callback.  Bail out if not running; advance
the phase when `phaseTimeLeft <= 0`; complete when `timeLeft <= 0`;
otherwise decrement both counters and re-render the time. -/
def tick (s : TimerState) : TimerState :=
  if !s.running then s
  else
    let s1 :=
      if s.phaseTimeLeft ≤ 0 then
        let idx := (s.phaseIdx + 1) % phases.length
        setPhase idx { s with phaseIdx := idx, phaseTimeLeft := s.tempo }
      else s
    if s1.timeLeft ≤ 0 then
      let s2 := stop s1
      { s2 with cue := "Complete", scale100 := 100 }
    else
      updateTime
        { s1 with phaseTimeLeft := s1.phaseTimeLeft - 1, timeLeft := s1.timeLeft - 1 }

/-- JS `start()`: no-op when running; otherwise set `running`, flip the
button states, re-apply the current phase, render the time and schedule
a fresh interval timer (the old `interval` id is overwritten, not
cleared). -/
def start (s : TimerState) : TimerState :=
  if s.running then s
  else
    let s1 :=
      { s with
        running := true
        startDisabled := true
        pauseDisabled := false
        resetDisabled := false }
    let s2 := updateTime (setPhase s1.phaseIdx s1)
    { s2 with
      intervalVar := some s2.nextId
      activeIds := s2.nextId :: s2.activeIds
      nextId := s2.nextId + 1 }

/-- JS `pause()`: no-op when not running; otherwise clear `running`, flip
the start/pause buttons and cancel the referenced interval timer. -/
def pause (s : TimerState) : TimerState :=
  if !s.running then s
  else
    { s with
      running := false
      startDisabled := false
      pauseDisabled := true
      activeIds := clearInterval s.activeIds s.intervalVar }

/-- JS `reset()`: stop, re-read both controls with their fallbacks, reset
all counters and the phase, restore the resting scale, show "Ready". -/
def reset (s : TimerState) : TimerState :=
  let s1 := stop s
  let tempo1 := parseIntOr s.tempoSelVal 4
  let total1 := parseIntOr s.durSelVal 60
  updateTime
    { s1 with
      tempo := tempo1
      total := total1
      timeLeft := total1
      phaseIdx := 0
      phaseTimeLeft := tempo1
      scale100 := 100
      cue := "Ready" }

/-- The tempo select's `change` handler: store the control value,
re-read `tempo` with its fallback, and reset `phaseTimeLeft` to it. -/
def tempoChange (s : TimerState) (v : Option Int) : TimerState :=
  let s1 := { s with tempoSelVal := v }
  { s1 with tempo := parseIntOr v 4, phaseTimeLeft := parseIntOr v 4 }

/-- The duration select's `change` handler: store the control value,
re-read `total` with its fallback, clamp `timeLeft`, re-render. -/
def durChange (s : TimerState) (v : Option Int) : TimerState :=
  let s1 := { s with durSelVal := v }
  let total1 := parseIntOr v 60
  updateTime { s1 with total := total1, timeLeft := min s1.timeLeft total1 }

/-- The module-level `let` initializers of `practiceController`, before
any function runs: `total = 60`, `tempo = 4`, `phaseIdx = 0`,
`phaseTimeLeft = tempo`, `timeLeft = total`, `running = false`,
`interval = null`.  The control values and the buttons' initial
`disabled` flags come from the page and are parameters; the initial DOM
text/scale is irrelevant (overwritten by the `reset()` run at setup)
and fixed arbitrarily. -/
def rawInit (tv dv : Option Int) (sb pb rb : Bool) : TimerState :=
  { total := 60
    tempo := 4
    phaseIdx := 0
    phaseTimeLeft := 4
    timeLeft := 60
    running := false
    tempoSelVal := tv
    durSelVal := dv
    cue := ""
    scale100 := 100
    timeText := ""
    startDisabled := sb
    pauseDisabled := pb
    resetDisabled := rb
    intervalVar := none
    activeIds := []
    nextId := 0 }

/-- The state after `practiceController` finishes its setup: it ends by
calling `reset()`. -/
def initState (tv dv : Option Int) (sb pb rb : Bool) : TimerState :=
  reset (rawInit tv dv sb pb rb)

/-- Iterate `tick` n times: n deliveries of the 1-second callback. -/
def ticks : Nat → TimerState → TimerState
  | 0, s => s
  | n + 1, s => ticks n (tick s)

/-- The events that can touch the timer state: the three user
operations, a timer callback, and the two control `change` handlers. -/
inductive Reachable : TimerState → Prop where
  | init (tv dv : Option Int) (sb pb rb : Bool) :
      Reachable (initState tv dv sb pb rb)
  | step_start {s : TimerState} : Reachable s → Reachable (start s)
  | step_pause {s : TimerState} : Reachable s → Reachable (pause s)
  | step_reset {s : TimerState} : Reachable s → Reachable (reset s)
  | step_tick {s : TimerState} : Reachable s → Reachable (tick s)
  | step_tempo {s : TimerState} (v : Option Int) :
      Reachable s → Reachable (tempoChange s v)
  | step_dur {s : TimerState} (v : Option Int) :
      Reachable s → Reachable (durChange s v)


/-! ## Concrete runs used by counterexamples and witnesses -/

/-- Start from a freshly loaded page with tempo control 4 and duration
control 8, then `reset()` (part of setup) and `start()`. -/
def run8 : TimerState := start (initState (some 4) (some 8) false true true)

/-- Start from a freshly loaded page with tempo control 4 and duration
control 60, then `reset()` (part of setup) and `start()`. -/
def run60 : TimerState := start (initState (some 4) (some 60) false true true)

/-! ## Invariants of reachable states -/

/-- Core invariant: timer bookkeeping is consistent with `running` (the
referenced interval id is the one active timer while running, none when
not), and the phase index stays inside the `phases` array. -/
def TimerInv (s : TimerState) : Prop :=
  (s.running = true → ∃ i, s.intervalVar = some i ∧ s.activeIds = [i]) ∧
  (s.running = false → s.activeIds = []) ∧
  s.phaseIdx < 4

lemma phases_length : phases.length = 4 := rfl

lemma clearInterval_nil (v : Option Nat) : clearInterval [] v = [] := by
  cases v <;> simp [clearInterval]

lemma inv_stop {s : TimerState} (h : TimerInv s) : TimerInv (stop s) := by
  obtain ⟨h1, h2, h3⟩ := h
  by_cases hr : s.running
  · obtain ⟨i, hiv, hia⟩ := h1 hr
    refine ⟨?_, ?_, ?_⟩ <;> simp [stop, clearInterval, hiv, hia, h3]
  · simp only [Bool.not_eq_true] at hr
    refine ⟨?_, ?_, ?_⟩ <;> simp [stop, clearInterval_nil, h2 hr, h3]

lemma inv_start {s : TimerState} (h : TimerInv s) : TimerInv (start s) := by
  obtain ⟨h1, h2, h3⟩ := h
  by_cases hr : s.running
  · simpa [start, hr] using ⟨h1, h2, h3⟩
  · simp only [Bool.not_eq_true] at hr
    refine ⟨?_, ?_, ?_⟩ <;>
      simp [start, hr, updateTime, setPhase, h2 hr, h3]

lemma inv_pause {s : TimerState} (h : TimerInv s) : TimerInv (pause s) := by
  obtain ⟨h1, h2, h3⟩ := h
  by_cases hr : s.running
  · obtain ⟨i, hiv, hia⟩ := h1 hr
    refine ⟨?_, ?_, ?_⟩ <;> simp [pause, hr, clearInterval, hiv, hia, h3]
  · simp only [Bool.not_eq_true] at hr
    simpa [pause, hr] using ⟨h1, h2, h3⟩

lemma stop_running (s : TimerState) : (stop s).running = false := rfl

lemma inv_reset {s : TimerState} (h : TimerInv s) : TimerInv (reset s) := by
  have ha : (stop s).activeIds = [] := (inv_stop h).2.1 (stop_running s)
  refine ⟨?_, ?_, ?_⟩ <;> simp [reset, updateTime, stop_running, ha]

lemma inv_tick {s : TimerState} (h : TimerInv s) : TimerInv (tick s) := by
  obtain ⟨h1, h2, h3⟩ := h
  by_cases hr : s.running
  · by_cases hp : s.phaseTimeLeft ≤ 0 <;> by_cases ht : s.timeLeft ≤ 0
    · obtain ⟨i, hiv, hia⟩ := h1 hr
      refine ⟨?_, ?_, ?_⟩ <;>
        simp [tick, hr, hp, ht, setPhase, stop, updateTime, clearInterval,
          hiv, hia, phases_length, Nat.mod_lt]
    · refine ⟨?_, ?_, ?_⟩ <;>
        simp [tick, hr, hp, ht, setPhase, updateTime, h1 hr, h2,
          phases_length, Nat.mod_lt]
    · obtain ⟨i, hiv, hia⟩ := h1 hr
      refine ⟨?_, ?_, ?_⟩ <;>
        simp [tick, hr, hp, ht, stop, updateTime, clearInterval, hiv, hia, h3]
    · refine ⟨?_, ?_, ?_⟩ <;>
        simp [tick, hr, hp, ht, updateTime, h1 hr, h3]
  · simp only [Bool.not_eq_true] at hr
    simpa [tick, hr] using ⟨h1, h2, h3⟩

lemma inv_tempoChange {s : TimerState} (v : Option Int) (h : TimerInv s) :
    TimerInv (tempoChange s v) := by
  obtain ⟨h1, h2, h3⟩ := h
  exact ⟨by simpa [tempoChange] using h1, by simpa [tempoChange] using h2,
    by simpa [tempoChange] using h3⟩

lemma inv_durChange {s : TimerState} (v : Option Int) (h : TimerInv s) :
    TimerInv (durChange s v) := by
  obtain ⟨h1, h2, h3⟩ := h
  exact ⟨by simpa [durChange, updateTime] using h1,
    by simpa [durChange, updateTime] using h2,
    by simpa [durChange, updateTime] using h3⟩

lemma inv_rawInit (tv dv : Option Int) (sb pb rb : Bool) :
    TimerInv (rawInit tv dv sb pb rb) := by
  refine ⟨?_, ?_, ?_⟩ <;> simp [rawInit]

lemma inv_initState (tv dv : Option Int) (sb pb rb : Bool) :
    TimerInv (initState tv dv sb pb rb) :=
  inv_reset (inv_rawInit tv dv sb pb rb)

/-- Every reachable state satisfies the core invariant. -/
lemma reachable_inv {s : TimerState} (h : Reachable s) : TimerInv s := by
  induction h with
  | init tv dv sb pb rb => exact inv_initState tv dv sb pb rb
  | step_start _ ih => exact inv_start ih
  | step_pause _ ih => exact inv_pause ih
  | step_reset _ ih => exact inv_reset ih
  | step_tick _ ih => exact inv_tick ih
  | step_tempo v _ ih => exact inv_tempoChange v ih
  | step_dur v _ ih => exact inv_durChange v ih

lemma run8_reachable : Reachable run8 :=
  Reachable.step_start (Reachable.init (some 4) (some 8) false true true)

lemma run60_reachable : Reachable run60 :=
  Reachable.step_start (Reachable.init (some 4) (some 60) false true true)

/-! ## Claims -/

/-- C1: for every valid tempo t > 0 and duration d > 0 (the values the
two controls parse to), after `reset()` the state has
`remainingSeconds = d`, `phaseRemainingSeconds = t`,
`currentPhaseIndex = 0`, the cue reads "Ready" and the circle is at the
resting scale, from any prior state whatsoever. -/
theorem C1_reset_initializes (s : TimerState) (t d : Int)
    (ht : 0 < t) (hd : 0 < d)
    (hts : s.tempoSelVal = some t) (hds : s.durSelVal = some d) :
    (reset s).timeLeft = d ∧ (reset s).phaseTimeLeft = t ∧
    (reset s).phaseIdx = 0 ∧ (reset s).cue = "Ready" ∧
    (reset s).scale100 = 100 ∧ (reset s).running = false := by
  have ht0 : ¬t = 0 := by omega
  have hd0 : ¬d = 0 := by omega
  refine ⟨?_, ?_, ?_, ?_, ?_, ?_⟩ <;>
    simp [reset, updateTime, stop, parseIntOr, hts, hds, ht0, hd0]

/-- C1 witness: tempo control 5, duration control 120, reset from the
raw load state. -/
theorem C1_reset_initializes_witness :
    (reset (rawInit (some 5) (some 120) false true true)).timeLeft = 120 ∧
    (reset (rawInit (some 5) (some 120) false true true)).phaseTimeLeft = 5 ∧
    (reset (rawInit (some 5) (some 120) false true true)).phaseIdx = 0 ∧
    (reset (rawInit (some 5) (some 120) false true true)).cue = "Ready" ∧
    (reset (rawInit (some 5) (some 120) false true true)).scale100 = 100 ∧
    (reset (rawInit (some 5) (some 120) false true true)).running = false :=
  C1_reset_initializes (rawInit (some 5) (some 120) false true true) 5 120
    (by decide) (by decide) rfl rfl

/-- C2 counterexample: with tempo 4 and duration 8, after `start()` and
exactly 8 ticks the session clock reads 0 but the timer is still
running and the cue still reads "Hold", not "Complete". -/
theorem C2_counterexample :
    (ticks 8 run8).timeLeft = 0 ∧ (ticks 8 run8).running = true ∧
    (ticks 8 run8).cue = "Hold" ∧ ¬(ticks 8 run8).cue = "Complete" := by
  decide

/-- C2 amended: completion is detected at the head of the next callback,
so with tempo 4 and duration 8 the Complete state is reached after 9
ticks: not running, cue "Complete", `remainingSeconds = 0`. -/
theorem C2_complete_after_nine_ticks :
    (ticks 9 run8).running = false ∧ (ticks 9 run8).cue = "Complete" ∧
    (ticks 9 run8).timeLeft = 0 := by
  decide

/-- C3: while running with time on the clock a tick decrements
`remainingSeconds` by exactly 1; at `remainingSeconds <= 0` a tick stops
the timer without touching the clock; a tick when not running changes
nothing at all; and a tick never drives a nonnegative clock negative. -/
theorem C3_tick_monotone (s : TimerState) :
    (s.running = true → 0 < s.timeLeft →
      (tick s).timeLeft = s.timeLeft - 1) ∧
    (s.running = true → s.timeLeft ≤ 0 →
      (tick s).running = false ∧ (tick s).timeLeft = s.timeLeft) ∧
    (s.running = false → tick s = s) ∧
    (0 ≤ s.timeLeft → 0 ≤ (tick s).timeLeft) := by
  by_cases hr : s.running
  · by_cases hp : s.phaseTimeLeft ≤ 0 <;> by_cases htl : s.timeLeft ≤ 0 <;>
      refine ⟨?_, ?_, ?_, ?_⟩ <;>
        simp [tick, hr, hp, htl, setPhase, stop, updateTime] <;> omega
  · simp only [Bool.not_eq_true] at hr
    refine ⟨?_, ?_, ?_, ?_⟩ <;> simp [tick, hr]

/-- C3 witness: on the tempo-4 duration-8 run, a running tick with 8
seconds left decrements to 7; the tick after the clock hits 0 stops
without decrementing; a tick on the stopped state is the identity; the
clock stays nonnegative. -/
theorem C3_tick_monotone_witness :
    (tick run8).timeLeft = run8.timeLeft - 1 ∧
    ((tick (ticks 8 run8)).running = false ∧
      (tick (ticks 8 run8)).timeLeft = (ticks 8 run8).timeLeft) ∧
    tick (ticks 9 run8) = ticks 9 run8 ∧
    0 ≤ (tick run8).timeLeft :=
  ⟨(C3_tick_monotone run8).1 (by decide) (by decide),
    (C3_tick_monotone (ticks 8 run8)).2.1 (by decide) (by decide),
    (C3_tick_monotone (ticks 9 run8)).2.2.1 (by decide),
    (C3_tick_monotone run8).2.2.2 (by decide)⟩

/-- C4 counterexample: two ticks into the first phase of the tempo-4
run, `phaseRemainingSeconds` is 2; changing the tempo control to 6 sets
it to 6 on the spot, not the unchanged 2 it would have been without the
change. -/
theorem C4_counterexample :
    (ticks 2 run60).phaseTimeLeft = 2 ∧
    (tempoChange (ticks 2 run60) (some 6)).phaseTimeLeft = 6 ∧
    ¬(tempoChange (ticks 2 run60) (some 6)).phaseTimeLeft =
        (ticks 2 run60).phaseTimeLeft := by
  decide

/-- C4 amended: a tempo change takes effect immediately, mid-phase: the
handler sets both `tempo` and `phaseRemainingSeconds` to the newly
parsed value at once (the counters and phase index are untouched). -/
theorem C4_tempo_change_immediate (s : TimerState) (v : Option Int) :
    (tempoChange s v).tempo = parseIntOr v 4 ∧
    (tempoChange s v).phaseTimeLeft = parseIntOr v 4 ∧
    (tempoChange s v).timeLeft = s.timeLeft ∧
    (tempoChange s v).phaseIdx = s.phaseIdx ∧
    (tempoChange s v).running = s.running :=
  ⟨rfl, rfl, rfl, rfl, rfl⟩

/-- C5: `start()` is idempotent on the whole observable state, and a
no-op when the timer is already running. -/
theorem C5_start_idempotent (s : TimerState) :
    start (start s) = start s ∧ (s.running = true → start s = s) := by
  have key : ∀ t : TimerState, t.running = true → start t = t := by
    intro t h
    simp [start, h]
  refine ⟨?_, key s⟩
  by_cases hr : s.running
  · simp [key s hr]
  · exact key (start s) (by simp [start, hr, updateTime, setPhase])

/-- C5 witness: on the running state `run8`, a second `start()` changes
nothing, and `start()` of the already-running state is that state. -/
theorem C5_start_idempotent_witness :
    start (start run8) = start run8 ∧ start run8 = run8 :=
  ⟨(C5_start_idempotent run8).1, (C5_start_idempotent run8).2 (by decide)⟩

/-- C6 counterexample: in the reachable running state `run8` one
interval timer (id 0) is scheduled; calling `start()` does not cancel
it (the call is a no-op, so the previously scheduled timer is still
active afterwards, and no `clearInterval` happens in `start`). -/
theorem C6_counterexample :
    run8.activeIds = [0] ∧ (start run8).activeIds = [0] := by
  decide

/-- C6 amended: in every reachable state at most one interval timer is
scheduled; `pause()` and `reset()` leave no timer scheduled; and
whenever `start()` would schedule (the timer not running), no timer is
active beforehand — so two ticking timers never coexist, even though
`start()` itself cancels nothing. -/
theorem C6_single_timer (s : TimerState) (h : Reachable s) :
    s.activeIds.length ≤ 1 ∧
    (pause s).activeIds = [] ∧
    (reset s).activeIds = [] ∧
    (s.running = false → s.activeIds = []) := by
  obtain ⟨h1, h2, h3⟩ := reachable_inv h
  have hreset : (reset s).activeIds = (stop s).activeIds := rfl
  have hstop : (stop s).activeIds = [] := (inv_stop ⟨h1, h2, h3⟩).2.1 rfl
  refine ⟨?_, ?_, hreset.trans hstop, h2⟩
  · by_cases hr : s.running
    · obtain ⟨i, _, hia⟩ := h1 hr
      simp [hia]
    · simp only [Bool.not_eq_true] at hr
      simp [h2 hr]
  · by_cases hr : s.running
    · obtain ⟨i, hiv, hia⟩ := h1 hr
      simp [pause, hr, clearInterval, hiv, hia]
    · simp only [Bool.not_eq_true] at hr
      simp [pause, hr, h2 hr]

/-- C6 witness: the reachable state `run8` has at most one scheduled
timer, and pausing or resetting it leaves none. -/
theorem C6_single_timer_witness :
    run8.activeIds.length ≤ 1 ∧
    (pause run8).activeIds = [] ∧
    (reset run8).activeIds = [] ∧
    (run8.running = false → run8.activeIds = []) :=
  C6_single_timer run8 run8_reachable

/-- C7: the phase index stays in [0,4) in every reachable state; at a
phase boundary (a running tick with the phase clock at 0) it advances
by exactly +1 modulo 4; on the tempo-4 run the index is 0 again after
4 ticks; and four boundary advances return any index in [0,4) to
itself, independently of the tempo. -/
theorem C7_phase_cycle :
    (∀ s : TimerState, Reachable s → s.phaseIdx < 4) ∧
    (∀ s : TimerState, s.running = true → s.phaseTimeLeft ≤ 0 →
      (tick s).phaseIdx = (s.phaseIdx + 1) % 4) ∧
    (ticks 4 run60).phaseIdx = 0 ∧
    (∀ i : Nat, i < 4 →
      ((((i + 1) % 4 + 1) % 4 + 1) % 4 + 1) % 4 = i) := by
  refine ⟨fun s h => (reachable_inv h).2.2, ?_, by decide, by omega⟩
  intro s hr hp
  by_cases htl : s.timeLeft ≤ 0 <;>
    simp [tick, hr, hp, htl, setPhase, stop, updateTime, phases_length]

/-- C7 witness: the phase index of the reachable state `run60` is below
4; the boundary tick after 4 ticks advances 0 to 1 = (0+1) % 4; and
four advances return 0 to 0. -/
theorem C7_phase_cycle_witness :
    run60.phaseIdx < 4 ∧
    (tick (ticks 4 run60)).phaseIdx = ((ticks 4 run60).phaseIdx + 1) % 4 ∧
    ((((0 + 1) % 4 + 1) % 4 + 1) % 4 + 1) % 4 = 0 :=
  ⟨C7_phase_cycle.1 run60 run60_reachable,
    C7_phase_cycle.2.1 (ticks 4 run60) (by decide) (by decide),
    C7_phase_cycle.2.2.2 0 (by decide)⟩

/-- C8: a duration change clamps the session clock to
`min(remainingSeconds, newTotal)` (the new total being the parsed value
with its fallback) and leaves the phase index, the phase clock, the
tempo and the running flag untouched. -/
theorem C8_duration_change_frame (s : TimerState) (v : Option Int) :
    (durChange s v).total = parseIntOr v 60 ∧
    (durChange s v).timeLeft = min s.timeLeft ((durChange s v).total) ∧
    (durChange s v).phaseIdx = s.phaseIdx ∧
    (durChange s v).phaseTimeLeft = s.phaseTimeLeft ∧
    (durChange s v).tempo = s.tempo ∧
    (durChange s v).running = s.running :=
  ⟨rfl, rfl, rfl, rfl, rfl, rfl⟩

/-- C9: the code's formatter agrees with the spec's formula
(`floor(max(0,s)/60)` zero-padded to 2 digits, ":", `max(0,s) mod 60`
zero-padded to 2 digits) on every input, and on the three quoted
examples. -/
theorem C9_fmt_correct :
    (∀ s : Int, fmt s = fmtSpec s) ∧
    fmt 65 = "01:05" ∧ fmt 0 = "00:00" ∧ fmt (-5) = "00:00" :=
  ⟨fun _ => rfl, by decide, by decide, by decide⟩

/-- C10: a control value parsing to 0 falls back to the defaults
(tempo 4, duration 60) in the change handlers and in `reset()`, while a
negative parsed value is accepted unchanged — the tempo, the total and
even the clamped session clock become negative, with no fallback and no
clamping to a positive value. -/
theorem C10_zero_falls_back_negative_kept (s : TimerState) :
    (tempoChange s (some 0)).tempo = 4 ∧
    (durChange s (some 0)).total = 60 ∧
    (reset { s with tempoSelVal := some 0, durSelVal := some 0 }).tempo = 4 ∧
    (reset { s with tempoSelVal := some 0, durSelVal := some 0 }).total = 60 ∧
    (∀ n : Int, n < 0 →
      (tempoChange s (some n)).tempo = n ∧
      (durChange s (some n)).total = n ∧
      (reset { s with tempoSelVal := some n, durSelVal := some n }).tempo = n ∧
      (reset { s with tempoSelVal := some n, durSelVal := some n }).timeLeft = n) := by
  refine ⟨rfl, rfl, rfl, rfl, fun n hn => ?_⟩
  have hn0 : ¬n = 0 := by omega
  refine ⟨?_, ?_, ?_, ?_⟩ <;>
    simp [tempoChange, durChange, reset, updateTime, stop, parseIntOr, hn0]

/-- C10 witness: on the raw load state, a control value of 0 falls back
to the defaults and a control value of -3 is kept as -3. -/
theorem C10_zero_falls_back_negative_kept_witness :
    (tempoChange (rawInit none none false true true) (some 0)).tempo = 4 ∧
    (durChange (rawInit none none false true true) (some 0)).total = 60 ∧
    (reset { rawInit none none false true true with
      tempoSelVal := some 0, durSelVal := some 0 }).tempo = 4 ∧
    (reset { rawInit none none false true true with
      tempoSelVal := some 0, durSelVal := some 0 }).total = 60 ∧
    ((tempoChange (rawInit none none false true true) (some (-3))).tempo = -3 ∧
      (durChange (rawInit none none false true true) (some (-3))).total = -3 ∧
      (reset { rawInit none none false true true with
        tempoSelVal := some (-3), durSelVal := some (-3) }).tempo = -3 ∧
      (reset { rawInit none none false true true with
        tempoSelVal := some (-3), durSelVal := some (-3) }).timeLeft = -3) :=
  ⟨(C10_zero_falls_back_negative_kept (rawInit none none false true true)).1,
    (C10_zero_falls_back_negative_kept (rawInit none none false true true)).2.1,
    (C10_zero_falls_back_negative_kept (rawInit none none false true true)).2.2.1,
    (C10_zero_falls_back_negative_kept (rawInit none none false true true)).2.2.2.1,
    (C10_zero_falls_back_negative_kept (rawInit none none false true true)).2.2.2.2
      (-3) (by decide)⟩

end Meditation
